import Mathlib

/-!
Shallow embedding of the sink request pipeline configuration code:
`src/sinks/util/service/concurrency.rs`, `src/sinks/util/service.rs`, and
`lib/vector-core/src/event/metadata.rs`.

Machine integers (`usize`, `u64`, `i64`) are modelled as `Nat` / `Int`;
no arithmetic in the embedded code can overflow, only comparisons and
copies occur. `Duration::from_secs` is modelled as the number of seconds
itself (a `Nat`).
-/

/-- The `Concurrency` enum from `src/sinks/util/service/concurrency.rs`:
variants `None`, `Adaptive`, `Fixed(usize)`. -/
inductive Concurrency where
  | None : Concurrency
  | Adaptive : Concurrency
  | Fixed : Nat → Concurrency
deriving DecidableEq, Repr

/-- The `Default` impl for `Concurrency`: `Self::None`. -/
def Concurrency.default : Concurrency := Concurrency.None

/-- The `Concurrency::if_none` method: replace `Self::None` by `other`,
keep anything else. -/
def Concurrency.if_none (self other : Concurrency) : Concurrency :=
  match self with
  | Concurrency.None => other
  | _ => self

/-- The `ConcurrencyOption` trait: `parse_concurrency` and `is_none` are
required methods. -/
class ConcurrencyOption (T : Type) where
  parse_concurrency : T → T → Option Nat
  is_none : T → Bool

/-- The trait's provided method `is_some`, defined as `!self.is_none()`. -/
def ConcurrencyOption.is_some {T : Type} [ConcurrencyOption T] (t : T) : Bool :=
  !(ConcurrencyOption.is_none t)

/-- The `impl ConcurrencyOption for Option<usize>`: `limit` is `default`
when `self` is `None` and `Some(x)` otherwise, then `limit.or(Some(1024))`. -/
instance : ConcurrencyOption (Option Nat) where
  parse_concurrency self de :=
    (match self with
     | none => de
     | some x => some x).or (some 1024)
  is_none self := self.isNone

/-- The `impl ConcurrencyOption for Concurrency`: apply `if_none` to the
default, then `None ↦ Some(1024)`, `Adaptive ↦ None`, `Fixed(limit) ↦
Some(limit)`. -/
instance : ConcurrencyOption Concurrency where
  parse_concurrency self de :=
    match self.if_none de with
    | Concurrency.None => some 1024
    | Concurrency.Adaptive => none
    | Concurrency.Fixed limit => some limit
  is_none self :=
    match self with
    | Concurrency.None => true
    | _ => false

/-- Modelled from the spec: `AdaptiveConcurrencySettings` (defined in
`src/sinks/util/adaptive_concurrency`, not part of this source set) holds
the three float knobs `decrease_ratio`, `ewma_alpha`,
`rtt_deviation_scale`; floats are modelled as rationals. No claim reads
these fields, the structure only travels through `unwrap_with` and
serialization unchanged. -/
structure AdaptiveConcurrencySettings where
  decrease_ratio : Rat
  ewma_alpha : Rat
  rtt_deviation_scale : Rat
deriving DecidableEq, Repr

/-- Modelled from the spec: defaults 0.9, 0.7, 2.5. -/
def AdaptiveConcurrencySettings.default : AdaptiveConcurrencySettings :=
  ⟨9/10, 7/10, 5/2⟩

def RATE_LIMIT_DURATION_SECONDS_DEFAULT : Nat := 1
/-- The constant `i64::max_value() as u64`. -/
def RATE_LIMIT_NUM_DEFAULT : Nat := 9223372036854775807
/-- The constant `isize::max_value() as usize` (64-bit target). -/
def RETRY_ATTEMPTS_DEFAULT : Nat := 9223372036854775807
def RETRY_MAX_DURATION_SECONDS_DEFAULT : Nat := 3600
def RETRY_INITIAL_BACKOFF_SECONDS_DEFAULT : Nat := 1
def TIMEOUT_SECONDS_DEFAULT : Nat := 60

/-- The `TowerRequestConfig<T: ConcurrencyOption = Concurrency>` struct
from `src/sinks/util/service.rs`. -/
structure TowerRequestConfig (T : Type) [ConcurrencyOption T] where
  concurrency : T
  in_flight_limit : T
  timeout_secs : Option Nat
  rate_limit_duration_secs : Option Nat
  rate_limit_num : Option Nat
  retry_attempts : Option Nat
  retry_max_duration_secs : Option Nat
  retry_initial_backoff_secs : Option Nat
  adaptive_concurrency : AdaptiveConcurrencySettings

/-- The `Default` impl for `TowerRequestConfig<T>` at `T = Concurrency`. -/
def TowerRequestConfig.default : TowerRequestConfig Concurrency :=
  { concurrency := Concurrency.default
    in_flight_limit := Concurrency.default
    timeout_secs := some TIMEOUT_SECONDS_DEFAULT
    rate_limit_duration_secs := some RATE_LIMIT_DURATION_SECONDS_DEFAULT
    rate_limit_num := some RATE_LIMIT_NUM_DEFAULT
    retry_attempts := some RETRY_ATTEMPTS_DEFAULT
    retry_max_duration_secs := some RETRY_MAX_DURATION_SECONDS_DEFAULT
    retry_initial_backoff_secs := some RETRY_INITIAL_BACKOFF_SECONDS_DEFAULT
    adaptive_concurrency := AdaptiveConcurrencySettings.default }

/-- The resolved `TowerRequestSettings` struct; `Duration` fields carry
the seconds value. -/
structure TowerRequestSettings where
  concurrency : Option Nat
  timeout : Nat
  rate_limit_duration : Nat
  rate_limit_num : Nat
  retry_attempts : Nat
  retry_max_duration_secs : Nat
  retry_initial_backoff_secs : Nat
  adaptive_concurrency : AdaptiveConcurrencySettings
deriving DecidableEq, Repr

/-- The method `TowerRequestConfig::concurrency` (renamed: the Lean field
`concurrency` already takes the name). It matches on
`(self.concurrency.is_some(), self.in_flight_limit.is_some())`:
`(_, false)` gives `concurrency`, `(false, true)` gives `in_flight_limit`,
`(true, true)` warns and gives `concurrency`. -/
def TowerRequestConfig.concurrency_used {T : Type} [ConcurrencyOption T]
    (self : TowerRequestConfig T) : T :=
  match ConcurrencyOption.is_some self.concurrency,
        ConcurrencyOption.is_some self.in_flight_limit with
  | _, false => self.concurrency
  | false, true => self.in_flight_limit
  | true, true => self.concurrency

/-- The method `TowerRequestConfig::unwrap_with`, resolving each optional
field via `self.field.or(defaults.field).unwrap_or(HARDCODED)` and the
concurrency via `self.concurrency().parse_concurrency(defaults.concurrency())`. -/
def TowerRequestConfig.unwrap_with {T : Type} [ConcurrencyOption T]
    (self defaults : TowerRequestConfig T) : TowerRequestSettings :=
  { concurrency :=
      ConcurrencyOption.parse_concurrency self.concurrency_used defaults.concurrency_used
    timeout :=
      (self.timeout_secs.or defaults.timeout_secs).getD TIMEOUT_SECONDS_DEFAULT
    rate_limit_duration :=
      (self.rate_limit_duration_secs.or defaults.rate_limit_duration_secs).getD
        RATE_LIMIT_DURATION_SECONDS_DEFAULT
    rate_limit_num :=
      (self.rate_limit_num.or defaults.rate_limit_num).getD RATE_LIMIT_NUM_DEFAULT
    retry_attempts :=
      (self.retry_attempts.or defaults.retry_attempts).getD RETRY_ATTEMPTS_DEFAULT
    retry_max_duration_secs :=
      (self.retry_max_duration_secs.or defaults.retry_max_duration_secs).getD
        RETRY_MAX_DURATION_SECONDS_DEFAULT
    retry_initial_backoff_secs :=
      (self.retry_initial_backoff_secs.or defaults.retry_initial_backoff_secs).getD
        RETRY_INITIAL_BACKOFF_SECONDS_DEFAULT
    adaptive_concurrency := self.adaptive_concurrency }

/-- Modelled from the spec: `FixedRetryPolicy<L>` (defined in
`src/sinks/util/retries.rs`, not part of this source set). Its fields are
named after the arguments of `FixedRetryPolicy::new(retry_attempts,
retry_initial_backoff_secs, retry_max_duration_secs, logic)` as called
from `TowerRequestSettings::retry_policy`. -/
structure FixedRetryPolicy (L : Type) where
  retry_attempts : Nat
  retry_initial_backoff_secs : Nat
  retry_max_duration_secs : Nat
  logic : L
deriving DecidableEq, Repr

/-- The `FixedRetryPolicy::new` constructor call. -/
def FixedRetryPolicy.new {L : Type} (attempts backoff max_duration : Nat)
    (logic : L) : FixedRetryPolicy L :=
  ⟨attempts, backoff, max_duration, logic⟩

/-- The method `TowerRequestSettings::retry_policy`. -/
def TowerRequestSettings.retry_policy {L : Type} (self : TowerRequestSettings)
    (logic : L) : FixedRetryPolicy L :=
  FixedRetryPolicy.new self.retry_attempts self.retry_initial_backoff_secs
    self.retry_max_duration_secs logic

/-- The shape of a tower service stack built around an inner service of
type `S` with retry logic of type `L`. Each constructor corresponds to one
tower middleware used in `src/sinks/util/service.rs`: `RateLimit`,
`Retry`, `AdaptiveConcurrencyLimit` (which carries the optional fixed
limit, the adaptive settings and the retry logic it is constructed with),
`Timeout`, `ConcurrencyLimit`, and `BoxService` (type erasure). -/
inductive SvcStack (S L : Type) where
  | inner : S → SvcStack S L
  | timeout : Nat → SvcStack S L → SvcStack S L
  | adaptiveConcurrencyLimit :
      Option Nat → AdaptiveConcurrencySettings → L → SvcStack S L → SvcStack S L
  | retry : FixedRetryPolicy L → SvcStack S L → SvcStack S L
  | rateLimit : Nat → Nat → SvcStack S L → SvcStack S L
  | concurrencyLimit : Nat → SvcStack S L → SvcStack S L
  | boxed : SvcStack S L → SvcStack S L
deriving DecidableEq, Repr

/-- Tower's `ServiceBuilder`, modelled as the ordered list of layers added
so far. Per tower semantics, the first layer added is the outermost one of
the assembled service. -/
structure ServiceBuilder (S L : Type) where
  layers : List (SvcStack S L → SvcStack S L)

/-- `ServiceBuilder::new()`: no layers. -/
def ServiceBuilder.new {S L : Type} : ServiceBuilder S L := ⟨[]⟩

/-- `ServiceBuilder::layer`: append one more (inner) layer. -/
def ServiceBuilder.layer {S L : Type} (self : ServiceBuilder S L)
    (l : SvcStack S L → SvcStack S L) : ServiceBuilder S L :=
  ⟨self.layers ++ [l]⟩

/-- `ServiceBuilder::rate_limit(num, per)`. -/
def ServiceBuilder.rate_limit {S L : Type} (self : ServiceBuilder S L)
    (num per : Nat) : ServiceBuilder S L :=
  self.layer (SvcStack.rateLimit num per)

/-- `ServiceBuilder::retry(policy)`. -/
def ServiceBuilder.retry {S L : Type} (self : ServiceBuilder S L)
    (policy : FixedRetryPolicy L) : ServiceBuilder S L :=
  self.layer (SvcStack.retry policy)

/-- `ServiceBuilder::timeout(duration)`. -/
def ServiceBuilder.timeout {S L : Type} (self : ServiceBuilder S L)
    (d : Nat) : ServiceBuilder S L :=
  self.layer (SvcStack.timeout d)

/-- `ServiceBuilder::concurrency_limit(n)`. -/
def ServiceBuilder.concurrency_limit {S L : Type} (self : ServiceBuilder S L)
    (n : Nat) : ServiceBuilder S L :=
  self.layer (SvcStack.concurrencyLimit n)

/-- `AdaptiveConcurrencyLimitLayer::new(concurrency, options, logic)` as a
layer. -/
def AdaptiveConcurrencyLimitLayer.new {S L : Type} (concurrency : Option Nat)
    (options : AdaptiveConcurrencySettings) (logic : L) :
    SvcStack S L → SvcStack S L :=
  SvcStack.adaptiveConcurrencyLimit concurrency options logic

/-- `ServiceBuilder::service(inner)`: wrap `inner` with the recorded
layers, first-added outermost. -/
def ServiceBuilder.service {S L : Type} (self : ServiceBuilder S L)
    (inner : S) : SvcStack S L :=
  self.layers.foldr (fun l acc => l acc) (SvcStack.inner inner)

/-- `BoxService::new`. -/
def BoxService.new {S L : Type} (s : SvcStack S L) : SvcStack S L :=
  SvcStack.boxed s

/-- The method `TowerRequestSettings::service`: builder with
`rate_limit`, `retry`, the adaptive concurrency layer, and `timeout`, in
that order, around `service`. -/
def TowerRequestSettings.service {S L : Type} (self : TowerRequestSettings)
    (retry_logic : L) (service : S) : SvcStack S L :=
  let policy := self.retry_policy retry_logic
  ((((ServiceBuilder.new.rate_limit self.rate_limit_num
        self.rate_limit_duration).retry
      policy).layer
     (AdaptiveConcurrencyLimitLayer.new self.concurrency
       self.adaptive_concurrency retry_logic)).timeout
    self.timeout).service service

/-- The `TowerRequestLayer<L, Request>` struct (the phantom request type
parameter is dropped). -/
structure TowerRequestLayer (L : Type) where
  settings : TowerRequestSettings
  retry_logic : L

/-- The `Layer::layer` impl for `TowerRequestLayer`: builder with
`concurrency_limit(concurrency.unwrap_or(5))`, `rate_limit`, `retry`,
`timeout` around `inner`, then boxed. -/
def TowerRequestLayer.layer {S L : Type} (self : TowerRequestLayer L)
    (inner : S) : SvcStack S L :=
  let policy := self.settings.retry_policy self.retry_logic
  let l :=
    (((((ServiceBuilder.new).concurrency_limit
          (self.settings.concurrency.getD 5)).rate_limit
        self.settings.rate_limit_num
        self.settings.rate_limit_duration).retry
       policy).timeout
      self.settings.timeout).service inner
  BoxService.new l

/-- A TOML value in serde's data model, restricted to the shapes the
concurrency field can meet: a signed integer (delivered to `visit_i64`),
an unsigned integer (delivered to `visit_u64`), a string (delivered to
`visit_str`), and an externally tagged newtype-variant map such as the one
the derived `Serialize` emits for `Concurrency::Fixed`. -/
inductive TomlValue where
  | i64 : Int → TomlValue
  | u64 : Nat → TomlValue
  | str : String → TomlValue
  | table : String → Int → TomlValue
deriving DecidableEq, Repr

/-- The custom `Deserialize` impl for `Concurrency` (visitor
`UsizeOrAdaptive`): `visit_str` accepts exactly the string adaptive,
`visit_i64`/`visit_u64` accept exactly positive integers, and any other
shape falls to the visitor's default error for its type (no `visit_map` is
provided). Error payloads model serde's messages. -/
def Concurrency.deserialize : TomlValue → Except String Concurrency
  | TomlValue.i64 value =>
    if 0 < value then Except.ok (Concurrency.Fixed value.toNat)
    else Except.error ("invalid value: integer " ++ toString value ++
      ", expected positive integer")
  | TomlValue.u64 value =>
    if 0 < value then Except.ok (Concurrency.Fixed value)
    else Except.error ("invalid value: integer " ++ toString value ++
      ", expected positive integer")
  | TomlValue.str value =>
    if value = "adaptive" then Except.ok Concurrency.Adaptive
    else Except.error ("unknown variant `" ++ value ++ "`, expected `adaptive`")
  | TomlValue.table _ _ =>
    Except.error ("invalid type: map, expected positive integer or \"adaptive\"")

/-- The derived `Serialize` impl for `Concurrency` (externally tagged
enum): unit variants become their names as strings, the newtype variant
`Fixed(n)` becomes the single-entry map with key Fixed. -/
def Concurrency.serialize : Concurrency → TomlValue
  | Concurrency.None => TomlValue.str "None"
  | Concurrency.Adaptive => TomlValue.str "Adaptive"
  | Concurrency.Fixed n => TomlValue.table "Fixed" (Int.ofNat n)

/-- The serialized form of a `TowerRequestConfig<Concurrency>`: one
optional entry per config key, `none` meaning the key is absent from the
output. `concurrency` and `in_flight_limit` carry
`skip_serializing_if = "ConcurrencyOption::is_none"`; the numeric
`Option` fields are omitted by the TOML serializer when `None`;
`adaptive_concurrency` is always present. -/
structure SerializedTowerRequestConfig where
  concurrency : Option TomlValue
  in_flight_limit : Option TomlValue
  timeout_secs : Option Nat
  rate_limit_duration_secs : Option Nat
  rate_limit_num : Option Nat
  retry_attempts : Option Nat
  retry_max_duration_secs : Option Nat
  retry_initial_backoff_secs : Option Nat
  adaptive_concurrency : AdaptiveConcurrencySettings
deriving DecidableEq, Repr

/-- The derived `Serialize` impl for `TowerRequestConfig<Concurrency>`
with its field attributes applied. -/
def TowerRequestConfig.serialize (self : TowerRequestConfig Concurrency) :
    SerializedTowerRequestConfig :=
  { concurrency :=
      if ConcurrencyOption.is_none self.concurrency then none
      else some self.concurrency.serialize
    in_flight_limit :=
      if ConcurrencyOption.is_none self.in_flight_limit then none
      else some self.in_flight_limit.serialize
    timeout_secs := self.timeout_secs
    rate_limit_duration_secs := self.rate_limit_duration_secs
    rate_limit_num := self.rate_limit_num
    retry_attempts := self.retry_attempts
    retry_max_duration_secs := self.retry_max_duration_secs
    retry_initial_backoff_secs := self.retry_initial_backoff_secs
    adaptive_concurrency := self.adaptive_concurrency }

/-- The derived `Deserialize` impl for `TowerRequestConfig<Concurrency>`:
a missing `concurrency` or `in_flight_limit` key means
`Concurrency::default()` (the fields carry `serde(default)`), a present
one goes through `Concurrency`'s custom `Deserialize`; missing `Option`
fields become `None`; `adaptive_concurrency` is taken as present here
(its own parsing lives outside this source set). -/
def TowerRequestConfig.deserialize (s : SerializedTowerRequestConfig) :
    Except String (TowerRequestConfig Concurrency) := do
  let conc ←
    match s.concurrency with
    | none => pure Concurrency.default
    | some v => Concurrency.deserialize v
  let ifl ←
    match s.in_flight_limit with
    | none => pure Concurrency.default
    | some v => Concurrency.deserialize v
  pure
    { concurrency := conc
      in_flight_limit := ifl
      timeout_secs := s.timeout_secs
      rate_limit_duration_secs := s.rate_limit_duration_secs
      rate_limit_num := s.rate_limit_num
      retry_attempts := s.retry_attempts
      retry_max_duration_secs := s.retry_max_duration_secs
      retry_initial_backoff_secs := s.retry_initial_backoff_secs
      adaptive_concurrency := s.adaptive_concurrency }

/-- Modelled from the spec: `EventFinalizer` (defined in
`lib/vector-core/src/event/finalization.rs`, not part of this source set)
is an opaque handle; only its identity matters here. -/
structure EventFinalizer where
  id : Nat
deriving DecidableEq, Repr

/-- Modelled from the spec: `EventFinalizers` is the list of finalizers
attached to one event's metadata. -/
abbrev EventFinalizers := List EventFinalizer

/-- Modelled from the spec: `EventFinalizers::merge` combines two
finalizer lists into their concatenation, `self`'s entries first. -/
def EventFinalizers.merge (self other : EventFinalizers) : EventFinalizers :=
  self ++ other

/-- The `EventMetadata` struct from `lib/vector-core/src/event/metadata.rs`;
the `Arc<str>` API key is modelled as the string it points to. -/
structure EventMetadata where
  datadog_api_key : Option String
  finalizers : EventFinalizers
deriving DecidableEq, Repr

/-- The method `EventMetadata::merge`: merge the finalizer lists, and take
`other`'s Datadog API key only when `self`'s is not set. The Rust method
mutates `self`; it is modelled as returning the updated value. -/
def EventMetadata.merge (self other : EventMetadata) : EventMetadata :=
  { finalizers := self.finalizers.merge other.finalizers
    datadog_api_key :=
      if self.datadog_api_key.isNone then other.datadog_api_key
      else self.datadog_api_key }

theorem parse_concurrency_concurrency_def (s d : Concurrency) :
    ConcurrencyOption.parse_concurrency s d =
      (match s.if_none d with
       | Concurrency.None => some 1024
       | Concurrency.Adaptive => none
       | Concurrency.Fixed limit => some limit) := rfl

theorem parse_concurrency_option_nat_def (s d : Option Nat) :
    ConcurrencyOption.parse_concurrency s d =
      (match s with
       | none => d
       | some x => some x).or (some 1024) := rfl

/-- Claim C1: `parse_concurrency` on `Concurrency` values first replaces a
`None` per-sink value by the default, then maps `None` to `Some(1024)`,
`Adaptive` to `None` (adaptive), and `Fixed(n)` to `Some(n)`; in
particular `Fixed 10` resolves to `Some 10`. -/
theorem C1_parse_concurrency_resolution (d : Concurrency) :
    (∀ e : Concurrency,
       ConcurrencyOption.parse_concurrency Concurrency.None e =
       ConcurrencyOption.parse_concurrency e e) ∧
    ConcurrencyOption.parse_concurrency Concurrency.None Concurrency.None = some 1024 ∧
    ConcurrencyOption.parse_concurrency Concurrency.None Concurrency.Adaptive = none ∧
    (∀ n : Nat,
       ConcurrencyOption.parse_concurrency Concurrency.None (Concurrency.Fixed n) = some n) ∧
    ConcurrencyOption.parse_concurrency Concurrency.Adaptive d = none ∧
    (∀ n : Nat, ConcurrencyOption.parse_concurrency (Concurrency.Fixed n) d = some n) ∧
    ConcurrencyOption.parse_concurrency (Concurrency.Fixed 10) d = some 10 :=
  ⟨fun e => by cases e <;> rfl, rfl, rfl, fun _ => rfl, rfl, fun _ => rfl, rfl⟩

/-- Claim C2: for every caller service and every resolved settings value,
`TowerRequestSettings::service` assembles exactly the nested stack
`RateLimit(Retry(AdaptiveConcurrencyLimit(Timeout(S))))`, rate limit
outermost and timeout innermost. -/
theorem C2_service_stack_shape {S L : Type} (t : TowerRequestSettings)
    (logic : L) (s : S) :
    t.service logic s =
      SvcStack.rateLimit t.rate_limit_num t.rate_limit_duration
        (SvcStack.retry (t.retry_policy logic)
          (SvcStack.adaptiveConcurrencyLimit t.concurrency
            t.adaptive_concurrency logic
            (SvcStack.timeout t.timeout (SvcStack.inner s)))) := rfl

/-- Claim C9: the `Option<usize>` implementation of `parse_concurrency`
always returns `Some`: the per-sink value when set, otherwise the default
when set, otherwise `Some 1024` — it never returns `None`, so the adaptive
setting is unreachable through this configuration type. -/
theorem C9_option_usize_always_some (s d : Option Nat) :
    (ConcurrencyOption.parse_concurrency s d).isSome = true ∧
    (∀ x, s = some x → ConcurrencyOption.parse_concurrency s d = some x) ∧
    (s = none → ∀ x, d = some x → ConcurrencyOption.parse_concurrency s d = some x) ∧
    (s = none → d = none → ConcurrencyOption.parse_concurrency s d = some 1024) := by
  cases s <;> cases d <;>
    simp [parse_concurrency_option_nat_def, Option.or]

/-- Closed instance of `C9_option_usize_always_some`, discharging its
hypotheses at `s = none`, `d = some 7`. -/
theorem C9_option_usize_always_some_witness :
    ConcurrencyOption.parse_concurrency (none : Option Nat) (some 7) = some 7 :=
  (C9_option_usize_always_some none (some 7)).2.2.1 rfl 7 rfl

/-- Claim C3: `unwrap_with` resolves each optional numeric field by
taking the per-sink value if set, otherwise the default config's value if
set, otherwise the hardcoded default: timeout 60 s, rate-limit window
1 s, rate-limit num `i64::MAX`, retry attempts `isize::MAX`, retry max
duration 3600 s, retry initial backoff 1 s. -/
theorem C3_unwrap_with_resolution {T : Type} [ConcurrencyOption T]
    (c d : TowerRequestConfig T) :
    ((∀ v, c.timeout_secs = some v → (c.unwrap_with d).timeout = v) ∧
     (c.timeout_secs = none → ∀ v, d.timeout_secs = some v →
        (c.unwrap_with d).timeout = v) ∧
     (c.timeout_secs = none → d.timeout_secs = none →
        (c.unwrap_with d).timeout = 60)) ∧
    ((∀ v, c.rate_limit_duration_secs = some v →
        (c.unwrap_with d).rate_limit_duration = v) ∧
     (c.rate_limit_duration_secs = none → ∀ v, d.rate_limit_duration_secs = some v →
        (c.unwrap_with d).rate_limit_duration = v) ∧
     (c.rate_limit_duration_secs = none → d.rate_limit_duration_secs = none →
        (c.unwrap_with d).rate_limit_duration = 1)) ∧
    ((∀ v, c.rate_limit_num = some v → (c.unwrap_with d).rate_limit_num = v) ∧
     (c.rate_limit_num = none → ∀ v, d.rate_limit_num = some v →
        (c.unwrap_with d).rate_limit_num = v) ∧
     (c.rate_limit_num = none → d.rate_limit_num = none →
        (c.unwrap_with d).rate_limit_num = 9223372036854775807)) ∧
    ((∀ v, c.retry_attempts = some v → (c.unwrap_with d).retry_attempts = v) ∧
     (c.retry_attempts = none → ∀ v, d.retry_attempts = some v →
        (c.unwrap_with d).retry_attempts = v) ∧
     (c.retry_attempts = none → d.retry_attempts = none →
        (c.unwrap_with d).retry_attempts = 9223372036854775807)) ∧
    ((∀ v, c.retry_max_duration_secs = some v →
        (c.unwrap_with d).retry_max_duration_secs = v) ∧
     (c.retry_max_duration_secs = none → ∀ v, d.retry_max_duration_secs = some v →
        (c.unwrap_with d).retry_max_duration_secs = v) ∧
     (c.retry_max_duration_secs = none → d.retry_max_duration_secs = none →
        (c.unwrap_with d).retry_max_duration_secs = 3600)) ∧
    ((∀ v, c.retry_initial_backoff_secs = some v →
        (c.unwrap_with d).retry_initial_backoff_secs = v) ∧
     (c.retry_initial_backoff_secs = none → ∀ v, d.retry_initial_backoff_secs = some v →
        (c.unwrap_with d).retry_initial_backoff_secs = v) ∧
     (c.retry_initial_backoff_secs = none → d.retry_initial_backoff_secs = none →
        (c.unwrap_with d).retry_initial_backoff_secs = 1)) := by
  refine ⟨⟨?_, ?_, ?_⟩, ⟨?_, ?_, ?_⟩, ⟨?_, ?_, ?_⟩, ⟨?_, ?_, ?_⟩, ⟨?_, ?_, ?_⟩,
    ⟨?_, ?_, ?_⟩⟩ <;>
  intros <;>
  simp_all [TowerRequestConfig.unwrap_with, TIMEOUT_SECONDS_DEFAULT,
    RATE_LIMIT_DURATION_SECONDS_DEFAULT, RATE_LIMIT_NUM_DEFAULT,
    RETRY_ATTEMPTS_DEFAULT, RETRY_MAX_DURATION_SECONDS_DEFAULT,
    RETRY_INITIAL_BACKOFF_SECONDS_DEFAULT]

/-- Closed instance of `C3_unwrap_with_resolution`, discharging its
hypotheses at the default configs (whose `timeout_secs` is `some 60`). -/
theorem C3_unwrap_with_resolution_witness :
    (TowerRequestConfig.default.unwrap_with TowerRequestConfig.default).timeout = 60 :=
  (C3_unwrap_with_resolution TowerRequestConfig.default
    TowerRequestConfig.default).1.1 60 rfl

/-- Claim C4: the effective concurrency comes from `in_flight_limit` only
when `concurrency` is unset and `in_flight_limit` is set; whenever
`concurrency` is set it wins (in particular when both are set); and a
config that differs from the default only in `in_flight_limit = Fixed 10`
has effective concurrency `Fixed 10`. -/
theorem C4_concurrency_alias (cfg : TowerRequestConfig Concurrency) :
    (cfg.concurrency = Concurrency.None → cfg.in_flight_limit ≠ Concurrency.None →
       cfg.concurrency_used = cfg.in_flight_limit) ∧
    (cfg.in_flight_limit = Concurrency.None → cfg.concurrency_used = cfg.concurrency) ∧
    (cfg.concurrency ≠ Concurrency.None → cfg.concurrency_used = cfg.concurrency) ∧
    ({ TowerRequestConfig.default with
        in_flight_limit := Concurrency.Fixed 10 } :
      TowerRequestConfig Concurrency).concurrency_used = Concurrency.Fixed 10 := by
  refine ⟨?_, ?_, ?_, rfl⟩ <;>
  rcases cfg with ⟨conc, ifl, ts, rld, rln, ra, rmd, rib, ac⟩ <;>
  cases conc <;> cases ifl <;>
  simp [TowerRequestConfig.concurrency_used, ConcurrencyOption.is_some,
    ConcurrencyOption.is_none]

/-- Closed instance of `C4_concurrency_alias`, discharging its hypotheses
at the config whose only non-default field is `in_flight_limit = Fixed 10`. -/
theorem C4_concurrency_alias_witness :
    ({ TowerRequestConfig.default with
        in_flight_limit := Concurrency.Fixed 10 } :
      TowerRequestConfig Concurrency).concurrency_used = Concurrency.Fixed 10 :=
  (C4_concurrency_alias
    { TowerRequestConfig.default with
        in_flight_limit := Concurrency.Fixed 10 }).1 rfl (by decide)

/-- Claim C5: deserializing a concurrency value succeeds exactly on a
positive integer `n` (either integer visit path), yielding `Fixed n`, or
on the literal string adaptive, yielding `Adaptive`; in particular the
input 10 parses to `Fixed 10`. -/
theorem C5_deserialize_accepts_exactly :
    (∀ (v : TomlValue) (c : Concurrency),
       Concurrency.deserialize v = Except.ok c ↔
         (∃ i : Int, v = TomlValue.i64 i ∧ 0 < i ∧ c = Concurrency.Fixed i.toNat) ∨
         (∃ n : Nat, v = TomlValue.u64 n ∧ 0 < n ∧ c = Concurrency.Fixed n) ∨
         (v = TomlValue.str "adaptive" ∧ c = Concurrency.Adaptive)) ∧
    Concurrency.deserialize (TomlValue.i64 10) = Except.ok (Concurrency.Fixed 10) := by
  refine ⟨fun v c => ?_, rfl⟩
  cases v <;> simp only [Concurrency.deserialize] <;> (try split) <;>
    simp_all [eq_comm]

/-- Claim C6: deserializing a concurrency value fails for zero (on either
integer visit path), for every negative integer, and for every string
other than adaptive; in particular 0, -9 and the string broken all fail. -/
theorem C6_deserialize_rejections :
    (∀ i : Int, i ≤ 0 →
       ∃ e, Concurrency.deserialize (TomlValue.i64 i) = Except.error e) ∧
    (∀ s : String, s ≠ "adaptive" →
       ∃ e, Concurrency.deserialize (TomlValue.str s) = Except.error e) ∧
    (∃ e, Concurrency.deserialize (TomlValue.u64 0) = Except.error e) ∧
    (∃ e, Concurrency.deserialize (TomlValue.i64 0) = Except.error e) ∧
    (∃ e, Concurrency.deserialize (TomlValue.i64 (-9)) = Except.error e) ∧
    (∃ e, Concurrency.deserialize (TomlValue.str "broken") = Except.error e) := by
  refine
    ⟨fun i hi =>
      ⟨"invalid value: integer " ++ toString i ++ ", expected positive integer", ?_⟩,
     fun s hs => ⟨"unknown variant `" ++ s ++ "`, expected `adaptive`", ?_⟩,
     ⟨_, rfl⟩, ⟨_, rfl⟩, ⟨_, rfl⟩, ⟨_, rfl⟩⟩
  · simp [Concurrency.deserialize, not_lt.mpr hi]
  · simp [Concurrency.deserialize, hs]

/-- Closed instance of `C6_deserialize_rejections`, discharging its
hypothesis at the negative integer -9. -/
theorem C6_deserialize_rejections_witness :
    ∃ e, Concurrency.deserialize (TomlValue.i64 (-9)) = Except.error e :=
  C6_deserialize_rejections.1 (-9) (by decide)

/-- Counterexample to claim C7: serializing the config that differs from
the default only in `concurrency = Adaptive` emits the derived enum form
(the string Adaptive, capitalised), which the custom deserializer rejects,
so the round trip does not return the original structure. -/
theorem C7_roundtrip_counterexample :
    TowerRequestConfig.deserialize
        (TowerRequestConfig.serialize
          { TowerRequestConfig.default with concurrency := Concurrency.Adaptive }) ≠
      Except.ok
        { TowerRequestConfig.default with concurrency := Concurrency.Adaptive } := by
  intro h
  rw [show
      TowerRequestConfig.deserialize
          (TowerRequestConfig.serialize
            { TowerRequestConfig.default with concurrency := Concurrency.Adaptive }) =
        Except.error ("unknown variant `Adaptive`, expected `adaptive`") from rfl] at h
  exact Except.noConfusion h

/-- Claim C7 as amended: the serialize-then-parse round trip returns the
identical structure for every config whose `concurrency` and
`in_flight_limit` are unset (`Concurrency::None`), the only case the
serializer emits a parseable form for those keys (it skips them); with
`Fixed` or `Adaptive` set, the derived `Serialize` output is rejected by
the custom `Deserialize`. -/
theorem C7_roundtrip_amended (c : TowerRequestConfig Concurrency)
    (h1 : c.concurrency = Concurrency.None)
    (h2 : c.in_flight_limit = Concurrency.None) :
    TowerRequestConfig.deserialize (TowerRequestConfig.serialize c) =
      Except.ok c := by
  rcases c with ⟨conc, ifl, ts, rld, rln, ra, rmd, rib, ac⟩
  subst h1
  subst h2
  rfl

/-- Closed instance of `C7_roundtrip_amended`, discharging its hypotheses
at the default config. -/
theorem C7_roundtrip_amended_witness :
    TowerRequestConfig.deserialize
        (TowerRequestConfig.serialize TowerRequestConfig.default) =
      Except.ok TowerRequestConfig.default :=
  C7_roundtrip_amended TowerRequestConfig.default rfl rfl

/-- Claim C8: `EventMetadata::merge` concatenates the finalizer lists
(`self`'s first) and keeps `self`'s Datadog API key when set, taking
`other`'s only when `self`'s is `None`; in particular merging
`(None, [A])` with `(Some K, [B])` yields `(Some K, [A, B])`, and the
reverse merge keeps the original key. -/
theorem C8_metadata_merge (m o : EventMetadata) :
    (m.merge o).finalizers = m.finalizers ++ o.finalizers ∧
    (∀ k, m.datadog_api_key = some k → (m.merge o).datadog_api_key = some k) ∧
    (m.datadog_api_key = none → (m.merge o).datadog_api_key = o.datadog_api_key) ∧
    EventMetadata.merge ⟨none, [⟨0⟩]⟩ ⟨some "K", [⟨1⟩]⟩ =
      ⟨some "K", [⟨0⟩, ⟨1⟩]⟩ ∧
    EventMetadata.merge ⟨some "K", [⟨1⟩]⟩ ⟨none, [⟨0⟩]⟩ =
      ⟨some "K", [⟨1⟩, ⟨0⟩]⟩ := by
  refine ⟨rfl, fun k hk => ?_, fun hn => ?_, rfl, rfl⟩
  · simp [EventMetadata.merge, hk]
  · simp [EventMetadata.merge, hn]

/-- Closed instance of `C8_metadata_merge`, discharging its hypothesis at
a metadata value with key set. -/
theorem C8_metadata_merge_witness :
    (EventMetadata.merge ⟨some "K0", []⟩ ⟨some "K1", []⟩).datadog_api_key =
      some "K0" :=
  (C8_metadata_merge ⟨some "K0", []⟩ ⟨some "K1", []⟩).2.1 "K0" rfl

/-- Claim C10: when the resolved concurrency is `None` (adaptive), the
legacy `TowerRequestLayer::layer` path builds a boxed stack whose static
concurrency limit is the fallback 5, with no adaptive concurrency layer,
ordered `ConcurrencyLimit(RateLimit(Retry(Timeout(S))))`. -/
theorem C10_legacy_layer_stack {S L : Type} (t : TowerRequestLayer L)
    (h : t.settings.concurrency = none) (s : S) :
    t.layer s =
      SvcStack.boxed
        (SvcStack.concurrencyLimit 5
          (SvcStack.rateLimit t.settings.rate_limit_num
            t.settings.rate_limit_duration
            (SvcStack.retry (t.settings.retry_policy t.retry_logic)
              (SvcStack.timeout t.settings.timeout (SvcStack.inner s))))) := by
  simp [TowerRequestLayer.layer, BoxService.new, ServiceBuilder.service,
    ServiceBuilder.new, ServiceBuilder.layer, ServiceBuilder.concurrency_limit,
    ServiceBuilder.rate_limit, ServiceBuilder.retry, ServiceBuilder.timeout, h]

/-- Closed instance of `C10_legacy_layer_stack`, discharging its
hypothesis at a settings value with adaptive (unset) concurrency. -/
theorem C10_legacy_layer_stack_witness :
    TowerRequestLayer.layer (S := Nat)
        ⟨⟨none, 60, 1, 100, 3, 3600, 1, AdaptiveConcurrencySettings.default⟩, ()⟩ 0 =
      SvcStack.boxed
        (SvcStack.concurrencyLimit 5
          (SvcStack.rateLimit 100 1
            (SvcStack.retry
              (TowerRequestSettings.retry_policy
                ⟨none, 60, 1, 100, 3, 3600, 1, AdaptiveConcurrencySettings.default⟩ ())
              (SvcStack.timeout 60 (SvcStack.inner 0))))) :=
  C10_legacy_layer_stack
    ⟨⟨none, 60, 1, 100, 3, 3600, 1, AdaptiveConcurrencySettings.default⟩, ()⟩ rfl 0

/-- Closed instance of `C1_parse_concurrency_resolution` at default
`Concurrency.None`, extracting the `Fixed 10` resolution. -/
theorem C1_parse_concurrency_resolution_witness :
    ConcurrencyOption.parse_concurrency (Concurrency.Fixed 10) Concurrency.None =
      some 10 :=
  (C1_parse_concurrency_resolution Concurrency.None).2.2.2.2.2.2

/-- Closed instance of `C2_service_stack_shape` at a concrete settings
value, inner service and retry logic. -/
theorem C2_service_stack_shape_witness :
    TowerRequestSettings.service (S := Nat)
        ⟨none, 60, 1, 100, 3, 3600, 1, AdaptiveConcurrencySettings.default⟩ () 0 =
      SvcStack.rateLimit 100 1
        (SvcStack.retry
          (TowerRequestSettings.retry_policy
            ⟨none, 60, 1, 100, 3, 3600, 1, AdaptiveConcurrencySettings.default⟩ ())
          (SvcStack.adaptiveConcurrencyLimit none
            AdaptiveConcurrencySettings.default ()
            (SvcStack.timeout 60 (SvcStack.inner 0)))) :=
  C2_service_stack_shape
    ⟨none, 60, 1, 100, 3, 3600, 1, AdaptiveConcurrencySettings.default⟩ () 0

/-- Closed instance of `C5_deserialize_accepts_exactly`: the integer 10
parses to `Fixed 10` through the characterisation. -/
theorem C5_deserialize_accepts_exactly_witness :
    Concurrency.deserialize (TomlValue.i64 10) =
      Except.ok (Concurrency.Fixed 10) :=
  (C5_deserialize_accepts_exactly.1 (TomlValue.i64 10)
    (Concurrency.Fixed 10)).mpr (Or.inl ⟨10, rfl, by decide, rfl⟩)
